import Mathlib

/-!
Verification of the levnertech ISO 27001 gap-assessment core: the decision-tree
graph store and traversal engine (`decision_tree.py`), the score-to-verdict
mapping and report helpers (`utils.py`), the empty-response guard of the
open-ended evaluation path (`llm_assessment.py`), and the verdict-count
aggregation of the results page (`app.py`).

Python dicts that preserve insertion order are embedded as association lists
(`List (String × _)`) with first-match lookup; Python floats are embedded as
rationals; Python exceptions become an explicit error sum type
(`KeyError` ↦ `EvalError.notFound`, `ValueError` ↦ `EvalError.invalidAnswer`,
matching the spec's `NotFoundError` / `InvalidAnswerError` taxonomy).
-/

namespace Levnertech

/-- A terminal verdict payload: in the Python data it is either a single
verdict string or a list of verdict strings (a compound verdict). -/
inductive VerdictVal where
  | single (v : String)
  | compound (vs : List String)
deriving DecidableEq

/-- The target of an answer option: in the Python data either a next-step id
(a plain string) or a dict `\x7b"verdict": ...\x7d` (a terminal). -/
inductive StepTarget where
  | next (step : String)
  | terminal (verdict : VerdictVal)
deriving DecidableEq

/-- One step of a clause: a question and an insertion-ordered mapping from
answer label to target, as in `decision_tree.py`. -/
structure TreeStep where
  question : String
  options : List (String × StepTarget)
deriving DecidableEq

/-- One clause: a title and an insertion-ordered mapping from step id to step. -/
structure Clause where
  title : String
  steps : List (String × TreeStep)
deriving DecidableEq

/-- First-match lookup in an association list, embedding Python dict access. -/
def dictGet {α : Type} (k : String) : List (String × α) → Option α
  | [] => none
  | (k2, v) :: rest => if k = k2 then some v else dictGet k rest

/-- Clause 4.1 of `decision_trees` in `decision_tree.py`. -/
def clause41 : Clause :=
  { title := "Understanding the organization and its context"
    steps :=
      [ ("1",
          { question := "Does the organization have a defined process (formal or informal) for identifying external issues (e.g., market conditions, regulatory environment, cultural, social factors) relevant to information security?"
            options := [("Yes", .next "2"), ("No", .terminal (.single "Major NC"))] })
      , ("2",
          { question := "Does the organization have a defined process for identifying internal issues (e.g., organizational structure, strategic objectives, internal culture, resource constraints) that affect ISMS outcomes?"
            options := [("Yes", .next "3"), ("No", .terminal (.single "Major NC"))] })
      , ("3",
          { question := "Where are these issues documented or recorded? (e.g., strategic plan, context analysis document, risk register)"
            options := [("Clear Documentation", .next "4"),
                        ("Partial / Verbal Only", .terminal (.compound ["Minor NC", "OFI"]))] })
      , ("4",
          { question := "Is there a schedule or trigger to review and update these external/internal issues?"
            options := [("Regularly Reviewed", .next "5"),
                        ("Irregular or Not Formalized", .terminal (.compound ["Minor NC", "OFI"]))] })
      , ("5",
          { question := "Do the identified issues clearly align with the organization\x27s purpose and influence on the ISMS objectives?"
            options := [("Yes", .terminal (.single "Complied")),
                        ("Partially or Vague", .terminal (.compound ["OFI", "Minor NC"]))] })
      ] }

/-- Clause 4.2 of `decision_trees` in `decision_tree.py`. -/
def clause42 : Clause :=
  { title := "Understanding the needs and expectations of interested parties"
    steps :=
      [ ("1",
          { question := "Does the organization identify all relevant interested parties (e.g., customers, regulators, suppliers, employees) for the ISMS?"
            options := [("Yes", .next "2"), ("No", .terminal (.single "Major NC"))] })
      , ("2",
          { question := "Has the organization documented the requirements (legal, regulatory, contractual) of these interested parties?"
            options := [("Yes", .next "3"),
                        ("No", .terminal (.compound ["Major NC", "Minor NC"]))] })
      , ("3",
          { question := "Has the organization decided which of these requirements are relevant and to be addressed within the ISMS?"
            options := [("Yes", .next "4"), ("No", .terminal (.single "Major NC"))] })
      , ("4",
          { question := "Is there documented evidence of how these decisions were made and what was included/excluded?"
            options := [("Comprehensive", .next "5"),
                        ("Partial", .terminal (.compound ["Minor NC", "OFI"]))] })
      , ("5",
          { question := "Are relevant stakeholders (e.g., leadership, ISMS team) aware of which requirements must be met?"
            options := [("Yes", .terminal (.single "Complied")),
                        ("No", .terminal (.single "Minor NC"))] })
      ] }

/-- Clause 4.3 of `decision_trees` in `decision_tree.py`. -/
def clause43 : Clause :=
  { title := "Determining the scope of the information security management system"
    steps :=
      [ ("1",
          { question := "Does the organization have a formal or informal process to define the boundaries and applicability of the ISMS?"
            options := [("Yes", .next "2"), ("No", .terminal (.single "Major NC"))] })
      , ("2",
          { question := "Did the organization factor in the external/internal issues (4.1) and interested party requirements (4.2) when defining scope?"
            options := [("Yes", .next "3"),
                        ("No", .terminal (.compound ["Minor NC", "Major NC"]))] })
      , ("3",
          { question := "Does the scope account for activities performed by external parties (outsourcers, partners, vendors) that could affect information security?"
            options := [("Yes", .next "4"),
                        ("No", .terminal (.compound ["Minor NC", "Major NC"]))] })
      , ("4",
          { question := "Is the scope documented (e.g., in a formal ISMS scope statement) and accessible to relevant stakeholders?"
            options := [("Yes", .next "5"), ("No", .terminal (.single "Minor NC"))] })
      , ("5",
          { question := "Does the documented scope clearly specify all locations, assets, and processes included (and excluded), as well as justifications?"
            options := [("Yes", .terminal (.single "Complied")),
                        ("Partial", .terminal (.compound ["OFI", "Minor NC"]))] })
      ] }

/-- Clause 4.4 of `decision_trees` in `decision_tree.py`. -/
def clause44 : Clause :=
  { title := "Information security management system"
    steps :=
      [ ("1",
          { question := "Has the organization established and implemented an ISMS framework (policies, processes, responsibilities) in line with Clause 4.1–4.3?"
            options := [("Yes", .next "2"), ("No", .terminal (.single "Major NC"))] })
      , ("2",
          { question := "Is there a mechanism for maintaining the ISMS and updating it as changes occur (e.g., new risks, new technologies)?"
            options := [("Yes", .next "3"), ("No", .terminal (.single "Minor NC"))] })
      , ("3",
          { question := "Does the organization document how various processes interact and support information security objectives?"
            options := [("Fully", .next "4"),
                        ("Partially", .terminal (.compound ["OFI", "Minor NC"]))] })
      , ("4",
          { question := "Are all ISO 27001 clauses (5–10) planned for or already integrated into the ISMS (not just Clause 4)?"
            options := [("Yes", .next "5"), ("No", .terminal (.single "Minor NC"))] })
      , ("5",
          { question := "Is the ISMS documentation (manual, procedures, records) readily available to those who need it?"
            options := [("Yes", .terminal (.single "Complied")),
                        ("No", .terminal (.compound ["OFI", "Minor NC"]))] })
      ] }

/-- The static clause graph store `decision_trees` of `decision_tree.py`. -/
def decision_trees : List (String × Clause) :=
  [("4.1", clause41), ("4.2", clause42), ("4.3", clause43), ("4.4", clause44)]

/-- `get_options(clause_id, step)`: the option labels in definition order.
The Python version raises `KeyError` on an unknown clause or step, embedded
here as `none`. -/
def get_options (clause_id step : String) : Option (List String) :=
  (dictGet clause_id decision_trees).bind fun tree =>
    (dictGet step tree.steps).map fun st => st.options.map Prod.fst

/-- Errors of the traversal engine: `notFound` embeds the `KeyError` raised by
a failed dict access (the spec's `NotFoundError`), `invalidAnswer` the
`ValueError` raised for an answer outside the options (`InvalidAnswerError`). -/
inductive EvalError where
  | notFound
  | invalidAnswer
deriving DecidableEq

/-- The successful result of `evaluate_answer`: either the next step id or a
terminal verdict payload. -/
inductive EvalResult where
  | nextStep (s : String)
  | verdict (v : VerdictVal)
deriving DecidableEq

/-- Body of `evaluate_answer` in `decision_tree.py`, parameterized by the graph
it reads (the Python function reads the module-level global `decision_trees`). -/
def evalAnswer (trees : List (String × Clause)) (clause_id step answer : String) :
    Except EvalError EvalResult :=
  match dictGet clause_id trees with
  | none => .error .notFound
  | some tree =>
    match dictGet step tree.steps with
    | none => .error .notFound
    | some st =>
      match dictGet answer st.options with
      | none => .error .invalidAnswer
      | some (.next s) => .ok (.nextStep s)
      | some (.terminal v) => .ok (.verdict v)

/-- `evaluate_answer(clause_id, step, answer)` of `decision_tree.py`. -/
def evaluate_answer (clause_id step answer : String) : Except EvalError EvalResult :=
  evalAnswer decision_trees clause_id step answer

/-- Explicit state-passing form of `evaluate_answer`: the Python body performs
only dict reads on the global `decision_trees` and contains no assignment, so
the state it returns is the state it was given. -/
def evalAnswerState (trees : List (String × Clause)) (clause_id step answer : String) :
    Except EvalError EvalResult × List (String × Clause) :=
  (evalAnswer trees clause_id step answer, trees)

/-- `COMPLIED_THRESHOLD` of `utils.py`. -/
def COMPLIED_THRESHOLD : ℚ := 0.85

/-- `MINOR_NC_THRESHOLD` of `utils.py`. -/
def MINOR_NC_THRESHOLD : ℚ := 0.7

/-- `MAJOR_NC_THRESHOLD` of `utils.py`. -/
def MAJOR_NC_THRESHOLD : ℚ := 0.6

/-- `score_to_verdict(relevance, completeness)` of `utils.py`; Python floats
are embedded as rationals, on which every comparison the function makes
behaves as it does on the source's literals. -/
def score_to_verdict (relevance completeness : ℚ) : String :=
  if relevance ≥ COMPLIED_THRESHOLD ∧ completeness ≥ COMPLIED_THRESHOLD then
    "Complied"
  else if relevance < MAJOR_NC_THRESHOLD ∨ completeness < MAJOR_NC_THRESHOLD then
    "Major NC"
  else if relevance ≥ MINOR_NC_THRESHOLD ∧ completeness ≥ MINOR_NC_THRESHOLD then
    "Minor NC"
  else
    "Opportunity for Improvement"

/-- A gap-analysis record as built by `app.py` and consumed by
`generate_recommendations` / `generate_checklist`: a clause id and the verdict
recorded for it (possibly compound). -/
structure Analysis where
  clause : String
  verdict : VerdictVal
deriving DecidableEq

/-- `generate_recommendations(analysis)` of `utils.py`: the function reads
`analysis.get("verdict")` and compares it to three verdict strings with `==`;
a compound (list) verdict is unequal to every string, so it falls to the
`else` (Major NC) branch. -/
def generate_recommendations (analysis : Analysis) : List String :=
  if analysis.verdict = .single "Complied" then
    ["Pertahankan praktik yang telah berjalan dengan baik."]
  else if analysis.verdict = .single "Minor NC" then
    ["Perbaiki detail yang kurang untuk memenuhi standar penuh.",
     "Tinjau kembali dokumentasi dan lengkapi bagian yang belum memadai."]
  else if analysis.verdict = .single "Opportunity for Improvement" then
    ["Pertimbangkan untuk meningkatkan proses meski sudah memenuhi syarat minimal.",
     "Tuliskan prosedur lebih rinci untuk meningkatkan konsistensi implementasi."]
  else
    ["Segera implementasikan proses sesuai klausul yang belum ada.",
     "Susun dan dokumentasikan prosedur dasar untuk kepatuhan awal."]

/-- The quick-recommendations aggregation of `app.py` (`all_recs`): the
recommendation lists of all recorded (clause, verdict) pairs, concatenated in
order. -/
def all_recs (responses : List (String × VerdictVal)) : List String :=
  responses.foldl (fun acc p => acc ++ generate_recommendations ⟨p.1, p.2⟩) []

/-- How a Python f-string renders the verdict value: a string renders as
itself, a list as its bracketed, quoted, comma-separated repr. -/
def pyStr : VerdictVal → String
  | .single v => v
  | .compound vs =>
      "[" ++ String.intercalate ", " (vs.map fun v => "\x27" ++ v ++ "\x27") ++ "]"

/-- One checklist line of `generate_checklist` in `utils.py`. -/
def checklistLine (a : Analysis) : String :=
  "Tinjau dan perbaiki klausul " ++ a.clause ++ ": verdict = " ++ pyStr a.verdict

/-- `generate_checklist(analysis_list)` of `utils.py`: one line per analysis
whose verdict is not the string "Complied" (a compound list compares unequal),
in input order; if none, a single fixed message. -/
def generate_checklist (analysis_list : List Analysis) : List String :=
  let checklist :=
    (analysis_list.filter fun a => a.verdict != .single "Complied").map checklistLine
  if checklist = [] then
    ["Semua klausul telah terpenuhi. Tidak ada tindakan tambahan yang diperlukan."]
  else
    checklist

/-- The initial counter mapping of the results page in `app.py`
(`verdict_counts = \x7b"Complied": 0, ...\x7d`). -/
def initCounts : List (String × Nat) :=
  [("Complied", 0), ("Minor NC", 0), ("Opportunity for Improvement", 0), ("Major NC", 0)]

/-- The primary of a recorded verdict, as `app.py` computes it
(`verdict = verdict[0]` when the verdict is a list). Python would raise
`IndexError` on an empty list, embedded as `none`; no empty compound occurs in
the graph. -/
def primaryVerdict : VerdictVal → Option String
  | .single v => some v
  | .compound vs => vs.head?

/-- `verdict_counts[verdict] += 1` guarded by `if verdict in verdict_counts`:
entries whose key equals the primary are incremented, all others (and a
primary absent from the mapping) are left unchanged. -/
def bumpCount (m : List (String × Nat)) (k : String) : List (String × Nat) :=
  m.map fun p => if p.1 = k then (p.1, p.2 + 1) else p

/-- One iteration of the counting loop in `app.py`. -/
def countStep (m : List (String × Nat)) (v : VerdictVal) : List (String × Nat) :=
  match primaryVerdict v with
  | some k => bumpCount m k
  | none => m

/-- The verdict-count aggregation of the results page in `app.py`
(lines 141–146), over the recorded verdicts in order. -/
def verdict_counts (vs : List VerdictVal) : List (String × Nat) :=
  vs.foldl countStep initCounts

/-- Outcome of `evaluate_open_text_compliance` as far as it is decided
locally: either an immediate result (the empty-response guard) or a handoff of
the possibly truncated response to the external evaluator, whose reply is not
modelled. -/
inductive OpenTextOutcome where
  | result (verdict : String) (scores : List (String × ℚ)) (feedback : String)
  | llmCall (user_response : String)
deriving DecidableEq

/-- Embeds the falsiness test `not user_response.strip()` of Python: the
stripped string is empty exactly when every character of the string is
whitespace. -/
def stripEmpty (s : String) : Bool :=
  s.toList.all fun c => c.isWhitespace

/-- The locally decided part of `evaluate_open_text_compliance(clause_id,
user_response, ...)` in `llm_assessment.py`: the guard
`if not user_response or not user_response.strip()` returns the fixed
Major NC result before anything else; otherwise the (truncated) response goes
to the external call. -/
def evaluate_open_text_compliance (clause_id user_response : String) : OpenTextOutcome :=
  if user_response = "" ∨ stripEmpty user_response = true then
    .result "Major NC" [("relevance", 0), ("completeness", 0)] "No response provided"
  else
    .llmCall (if user_response.length > 4000 then
                (user_response.take 4000) ++ "..."
              else user_response)

/-- The Continue targets of a step's options, in order. -/
def continueTargets (st : TreeStep) : List String :=
  st.options.filterMap fun p =>
    match p.2 with
    | .next s => some s
    | .terminal _ => none

/-- No Continue transition of any step of the clause dangles: each referenced
next-step id is a step of the same clause. -/
def noDangling (cl : Clause) : Prop :=
  ∀ p ∈ cl.steps, ∀ s2 ∈ continueTargets p.2, (dictGet s2 cl.steps).isSome = true

/-- Bounded check that from step `s`, every option of every reachable step
leads to a Terminal transition within `n` answers. -/
def stepTerminatesWithin (cl : Clause) : Nat → String → Bool
  | 0, _ => false
  | n + 1, s =>
    match dictGet s cl.steps with
    | none => false
    | some st =>
      st.options.all fun p =>
        match p.2 with
        | .terminal _ => true
        | .next s2 => stepTerminatesWithin cl n s2

/-- Outcome of feeding a list of answers through the traversal of one clause. -/
inductive RunOut where
  | verdict (v : VerdictVal)
  | cont (s : String)
  | invalid
deriving DecidableEq

/-- Feed a list of answers through a clause's graph from step `s`, one
`evaluate_answer` transition per answer: a Terminal option ends with its
verdict, an unknown step or answer is `invalid`, and running out of answers
mid-graph leaves the traversal continuing at the current step. -/
def runAnswers (cl : Clause) : String → List String → RunOut
  | s, [] => .cont s
  | s, a :: rest =>
    match dictGet s cl.steps with
    | none => .invalid
    | some st =>
      match dictGet a st.options with
      | none => .invalid
      | some (.terminal v) => .verdict v
      | some (.next s2) => runAnswers cl s2 rest

/-! ### Helper lemmas about association-list lookup -/

theorem dictGet_mem {α : Type} {l : List (String × α)} {k : String} {v : α}
    (h : dictGet k l = some v) : (k, v) ∈ l := by
  induction l with
  | nil => simp [dictGet] at h
  | cons p rest ih =>
    obtain ⟨k2, v2⟩ := p
    rw [dictGet] at h
    split at h
    · next heq =>
      obtain rfl : v2 = v := by simpa using h
      subst heq
      exact List.mem_cons_self _ _
    · exact List.mem_cons_of_mem _ (ih h)

theorem dictGet_isSome_iff {α : Type} (l : List (String × α)) (k : String) :
    (∃ v, dictGet k l = some v) ↔ k ∈ l.map Prod.fst := by
  induction l with
  | nil => simp [dictGet]
  | cons p rest ih =>
    obtain ⟨k2, v2⟩ := p
    by_cases h : k = k2 <;> simp [dictGet, h, ih]

/-! ### Score-to-verdict mapping -/

/-- C1: `score_to_verdict` is total (a Lean function on all rational score
pairs, with no clamping or validation anywhere in its body) and returns, in
this precedence order with first match winning: Complied if both scores
≥ 0.85; else Major NC if either score < 0.6; else Minor NC if both ≥ 0.7;
else Opportunity for Improvement. -/
theorem score_to_verdict_spec (relevance completeness : ℚ) :
    (relevance ≥ 0.85 ∧ completeness ≥ 0.85 →
        score_to_verdict relevance completeness = "Complied") ∧
    (¬(relevance ≥ 0.85 ∧ completeness ≥ 0.85) →
      (relevance < 0.6 ∨ completeness < 0.6) →
        score_to_verdict relevance completeness = "Major NC") ∧
    (¬(relevance ≥ 0.85 ∧ completeness ≥ 0.85) →
      ¬(relevance < 0.6 ∨ completeness < 0.6) →
      (relevance ≥ 0.7 ∧ completeness ≥ 0.7) →
        score_to_verdict relevance completeness = "Minor NC") ∧
    (¬(relevance ≥ 0.85 ∧ completeness ≥ 0.85) →
      ¬(relevance < 0.6 ∨ completeness < 0.6) →
      ¬(relevance ≥ 0.7 ∧ completeness ≥ 0.7) →
        score_to_verdict relevance completeness =
          "Opportunity for Improvement") := by
  unfold score_to_verdict COMPLIED_THRESHOLD MINOR_NC_THRESHOLD MAJOR_NC_THRESHOLD
  refine ⟨fun h1 => ?_, fun h1 h2 => ?_, fun h1 h2 h3 => ?_, fun h1 h2 h3 => ?_⟩
  · rw [if_pos h1]
  · rw [if_neg h1, if_pos h2]
  · rw [if_neg h1, if_neg h2, if_pos h3]
  · rw [if_neg h1, if_neg h2, if_neg h3]

/-- Witness for C1: the theorem applied at the four sample score pairs of the
spec, one per branch. -/
theorem score_to_verdict_spec_witness :
    score_to_verdict 0.9 0.9 = "Complied" ∧
    score_to_verdict 0.5 0.9 = "Major NC" ∧
    score_to_verdict 0.75 0.75 = "Minor NC" ∧
    score_to_verdict 0.65 0.8 = "Opportunity for Improvement" :=
  ⟨(score_to_verdict_spec 0.9 0.9).1 (by norm_num),
   (score_to_verdict_spec 0.5 0.9).2.1 (by norm_num) (by norm_num),
   (score_to_verdict_spec 0.75 0.75).2.2.1 (by norm_num) (by norm_num) (by norm_num),
   (score_to_verdict_spec 0.65 0.8).2.2.2 (by norm_num) (by norm_num) (by norm_num)⟩

/-- C4 counterexample: the claim's two boundary expectations are both wrong on
the code — `score_to_verdict(0.7, 0.95)` is "Minor NC" (both scores ≥ 0.7),
not "Opportunity for Improvement", and `score_to_verdict(0.6, 0.6)` is
"Opportunity for Improvement" (neither < 0.6, not both ≥ 0.7), not
"Minor NC". -/
theorem score_to_verdict_boundary_counterexample :
    ¬(score_to_verdict 0.7 0.95 = "Opportunity for Improvement" ∧
      score_to_verdict 0.6 0.6 = "Minor NC") := by
  norm_num [score_to_verdict, COMPLIED_THRESHOLD, MINOR_NC_THRESHOLD, MAJOR_NC_THRESHOLD]
  intro h
  simp at h

/-- C4 (amended): `score_to_verdict(0.7, 0.95)` returns Minor NC (one
dimension exactly at the Minor NC threshold, both ≥ 0.7 but not both ≥ 0.85),
and `score_to_verdict(0.6, 0.6)` returns Opportunity for Improvement (both
exactly at the inclusive Major NC cutoff, so not Major NC, but not both at the
Minor NC threshold 0.7). -/
theorem score_to_verdict_boundary :
    score_to_verdict 0.7 0.95 = "Minor NC" ∧
    score_to_verdict 0.6 0.6 = "Opportunity for Improvement" := by
  constructor <;>
    norm_num [score_to_verdict, COMPLIED_THRESHOLD, MINOR_NC_THRESHOLD, MAJOR_NC_THRESHOLD]

/-! ### Traversal-engine error contract -/

theorem evalAnswer_clause_missing {trees : List (String × Clause)}
    {clause_id step answer : String} (hc : dictGet clause_id trees = none) :
    evalAnswer trees clause_id step answer = Except.error EvalError.notFound := by
  simp [evalAnswer, hc]

theorem evalAnswer_step_missing {trees : List (String × Clause)}
    {clause_id step answer : String} {tree : Clause}
    (hc : dictGet clause_id trees = some tree)
    (hs : dictGet step tree.steps = none) :
    evalAnswer trees clause_id step answer = Except.error EvalError.notFound := by
  simp [evalAnswer, hc, hs]

theorem evalAnswer_of_target {trees : List (String × Clause)}
    {clause_id step : String} (answer : String) {tree : Clause} {st : TreeStep}
    (hc : dictGet clause_id trees = some tree)
    (hs : dictGet step tree.steps = some st) :
    evalAnswer trees clause_id step answer =
      match dictGet answer st.options with
      | none => Except.error EvalError.invalidAnswer
      | some (.next s) => Except.ok (.nextStep s)
      | some (.terminal v) => Except.ok (.verdict v) := by
  simp [evalAnswer, hc, hs]

theorem get_options_of_step {clause_id step : String} {tree : Clause} {st : TreeStep}
    (hc : dictGet clause_id decision_trees = some tree)
    (hs : dictGet step tree.steps = some st) :
    get_options clause_id step = some (st.options.map Prod.fst) := by
  simp [get_options, hc, hs]

/-- C2: when the clause and step exist (i.e. `get_options` returns labels),
`evaluate_answer` succeeds exactly when the chosen answer is, by exact string
identity, one of those labels, and fails with the invalid-answer error
(`ValueError` in the source, the spec's `InvalidAnswerError`) for any other
string; when the clause or step is unknown it fails with the not-found error
(`KeyError` in the source, the spec's `NotFoundError`). -/
theorem evaluate_answer_contract (clause_id step answer : String) :
    (∀ labels, get_options clause_id step = some labels →
      ((∃ r, evaluate_answer clause_id step answer = Except.ok r) ↔ answer ∈ labels) ∧
      (answer ∉ labels →
        evaluate_answer clause_id step answer = Except.error EvalError.invalidAnswer)) ∧
    (get_options clause_id step = none →
      evaluate_answer clause_id step answer = Except.error EvalError.notFound) := by
  cases hc : dictGet clause_id decision_trees with
  | none =>
    refine ⟨fun labels hlab => ?_, fun _ => evalAnswer_clause_missing hc⟩
    simp [get_options, hc] at hlab
  | some tree =>
    cases hs : dictGet step tree.steps with
    | none =>
      refine ⟨fun labels hlab => ?_, fun _ => evalAnswer_step_missing hc hs⟩
      simp [get_options, hc, hs] at hlab
    | some st =>
      refine ⟨fun labels hlab => ?_, fun hnone => ?_⟩
      · obtain rfl : st.options.map Prod.fst = labels := by
          have := get_options_of_step hc hs
          rw [this] at hlab
          exact Option.some_injective _ hlab
        have heval := evalAnswer_of_target answer hc hs
        rw [evaluate_answer] at *
        cases ha : dictGet answer st.options with
        | none =>
          rw [ha] at heval
          refine ⟨⟨fun h => ?_, fun hmem => ?_⟩, fun _ => heval⟩
          · obtain ⟨r, hr⟩ := h
            rw [heval] at hr
            cases hr
          · obtain ⟨v, hv⟩ := (dictGet_isSome_iff st.options answer).mpr hmem
            rw [ha] at hv
            cases hv
        | some tgt =>
          have hmem := (dictGet_isSome_iff st.options answer).mp ⟨tgt, ha⟩
          rw [ha] at heval
          cases tgt with
          | next s2 =>
            exact ⟨⟨fun _ => hmem, fun _ => ⟨_, heval⟩⟩, fun hno => absurd hmem hno⟩
          | terminal v =>
            exact ⟨⟨fun _ => hmem, fun _ => ⟨_, heval⟩⟩, fun hno => absurd hmem hno⟩
      · rw [get_options_of_step hc hs] at hnone
        cases hnone

/-- Witness for C2: at clause 4.1 step 1, the exact label "Yes" succeeds, the
case-variant "yes" fails with the invalid-answer error, and the unknown clause
"9.9" fails with the not-found error. -/
theorem evaluate_answer_contract_witness :
    (∃ r, evaluate_answer "4.1" "1" "Yes" = Except.ok r) ∧
    evaluate_answer "4.1" "1" "yes" = Except.error EvalError.invalidAnswer ∧
    evaluate_answer "9.9" "1" "Yes" = Except.error EvalError.notFound :=
  ⟨((evaluate_answer_contract "4.1" "1" "Yes").1 ["Yes", "No"] rfl).1.mpr (by decide),
   ((evaluate_answer_contract "4.1" "1" "yes").1 ["Yes", "No"] rfl).2 (by decide),
   (evaluate_answer_contract "9.9" "1" "Yes").2 rfl⟩

/-! ### Graph well-formedness: no dangling Continue targets, bounded termination -/

theorem stepTerminatesWithin_runAnswers (cl : Clause) :
    ∀ n s answers, stepTerminatesWithin cl n s = true → n ≤ answers.length →
      ∀ s2, runAnswers cl s answers ≠ RunOut.cont s2 := by
  intro n
  induction n with
  | zero =>
    intro s answers h
    simp [stepTerminatesWithin] at h
  | succ n ih =>
    intro s answers h hlen s2
    cases answers with
    | nil => simp at hlen
    | cons a rest =>
      rw [stepTerminatesWithin] at h
      cases hs : dictGet s cl.steps with
      | none =>
        rw [hs] at h
        cases h
      | some st =>
        rw [hs] at h
        cases ha : dictGet a st.options with
        | none => simp [runAnswers, hs, ha]
        | some tgt =>
          have hall := List.all_eq_true.mp h _ (dictGet_mem ha)
          cases tgt with
          | terminal v => simp [runAnswers, hs, ha]
          | next snext =>
            have hrest : runAnswers cl snext rest ≠ RunOut.cont s2 :=
              ih snext rest (by simpa using hall)
                (Nat.le_of_succ_le_succ (by simpa using hlen)) s2
            simpa [runAnswers, hs, ha] using hrest

/-- C3: every clause of the static graph has no dangling Continue reference
(each `next_step_id` is a step of the same clause), has exactly 5 steps, and
from step "1" every sequence of option choices reaches a Terminal transition
within at most 5 transitions: feeding any 5 answers through the graph never
leaves the traversal still continuing at some step. -/
theorem decision_trees_wellformed :
    ∀ p ∈ decision_trees, noDangling p.2 ∧ p.2.steps.length = 5 ∧
      ∀ answers : List String, 5 ≤ answers.length →
        ∀ s2, runAnswers p.2 "1" answers ≠ RunOut.cont s2 := by
  intro p hp
  have hterm : ∀ cl : Clause, stepTerminatesWithin cl 5 "1" = true →
      ∀ answers : List String, 5 ≤ answers.length →
        ∀ s2, runAnswers cl "1" answers ≠ RunOut.cont s2 :=
    fun cl hcl answers hlen s2 =>
      stepTerminatesWithin_runAnswers cl 5 "1" answers hcl hlen s2
  simp only [decision_trees, List.mem_cons, List.not_mem_nil, or_false] at hp
  rcases hp with h | h | h | h <;> subst h
  · exact ⟨by unfold noDangling; decide, rfl, hterm clause41 (by decide)⟩
  · exact ⟨by unfold noDangling; decide, rfl, hterm clause42 (by decide)⟩
  · exact ⟨by unfold noDangling; decide, rfl, hterm clause43 (by decide)⟩
  · exact ⟨by unfold noDangling; decide, rfl, hterm clause44 (by decide)⟩

/-- Witness for C3: applied to clause 4.1 with a concrete all-positive answer
sequence of length 5 (which in fact reaches the Complied verdict). -/
theorem decision_trees_wellformed_witness :
    runAnswers clause41 "1"
      ["Yes", "Yes", "Clear Documentation", "Regularly Reviewed", "Yes"] ≠
      RunOut.cont "1" :=
  (decision_trees_wellformed ("4.1", clause41) (List.mem_cons_self _ _)).2.2
    ["Yes", "Yes", "Clear Documentation", "Regularly Reviewed", "Yes"]
    (by decide) "1"

/-! ### Verdict-count aggregation -/

theorem dictGet_bumpCount (m : List (String × Nat)) (k k2 : String) :
    dictGet k (bumpCount m k2) =
      (dictGet k m).map fun n => if k = k2 then n + 1 else n := by
  induction m with
  | nil => rfl
  | cons p rest ih =>
    obtain ⟨k1, n1⟩ := p
    simp only [bumpCount, List.map_cons] at ih ⊢
    by_cases h2 : k1 = k2
    · rw [if_pos h2]
      by_cases hk : k = k1
      · subst hk
        subst h2
        simp [dictGet]
      · simp [dictGet, hk, ih]
    · rw [if_neg h2]
      by_cases hk : k = k1
      · subst hk
        simp [dictGet, h2]
      · simp [dictGet, hk, ih]

theorem bumpCount_keys (m : List (String × Nat)) (k : String) :
    (bumpCount m k).map Prod.fst = m.map Prod.fst := by
  unfold bumpCount
  rw [List.map_map]
  refine List.map_congr_left fun p _ => ?_
  by_cases h : p.1 = k <;> simp [h]

theorem foldl_countStep_keys (vs : List VerdictVal) :
    ∀ m : List (String × Nat),
      (vs.foldl countStep m).map Prod.fst = m.map Prod.fst := by
  induction vs with
  | nil => intro m; rfl
  | cons v rest ih =>
    intro m
    rw [List.foldl_cons, ih]
    cases hp : primaryVerdict v with
    | none => simp [countStep, hp]
    | some k => simp [countStep, hp, bumpCount_keys]

theorem dictGet_foldl_countStep (vs : List VerdictVal) :
    ∀ (m : List (String × Nat)) (k : String) (n : Nat),
      dictGet k m = some n →
      dictGet k (vs.foldl countStep m) =
        some (n + vs.countP fun v => decide (primaryVerdict v = some k)) := by
  induction vs with
  | nil =>
    intro m k n h
    simpa using h
  | cons v rest ih =>
    intro m k n h
    rw [List.foldl_cons, List.countP_cons]
    cases hp : primaryVerdict v with
    | none =>
      have hcs : countStep m v = m := by simp [countStep, hp]
      rw [hcs, ih m k n h]
      simp [hp]
    | some k2 =>
      have hcs : countStep m v = bumpCount m k2 := by simp [countStep, hp]
      have hb := dictGet_bumpCount m k k2
      rw [h] at hb
      by_cases hkk : k = k2
      · subst hkk
        rw [hcs, ih _ k (n + 1) (by simpa using hb)]
        simp [hp]
        omega
      · rw [hcs, ih _ k n (by simpa [hkk] using hb)]
        simp [hp, Ne.symm hkk]

/-- C5 counterexample: the graph records compound verdicts whose primary is
the abbreviation "OFI" (clause 4.1 step 5, option "Partially or Vague"), a
string that is not a key of the counter mapping, so the aggregation of
`app.py` increments no counter for it: counting that single recorded verdict
leaves every counter at zero instead of incrementing the counter of its
primary. -/
theorem verdict_counts_counterexample :
    verdict_counts [VerdictVal.compound ["OFI", "Minor NC"]] =
      [("Complied", 0), ("Minor NC", 0), ("Opportunity for Improvement", 0),
       ("Major NC", 0)] := rfl

/-- C5 (amended): the aggregation produces a mapping with exactly the four
verdicts as keys (in their fixed order, initialized at zero), and the counter
of each of the four verdicts equals the number of recorded verdicts whose
primary (first element if compound, the verdict itself otherwise) is exactly
that verdict string — a primary outside the four keys (such as the
abbreviation "OFI") is silently not counted; in particular counting
["Complied", ["Minor NC","OFI"], "Major NC"] yields Complied:1, Minor NC:1,
Opportunity for Improvement:0, Major NC:1. -/
theorem verdict_counts_spec (vs : List VerdictVal) :
    (verdict_counts vs).map Prod.fst =
      ["Complied", "Minor NC", "Opportunity for Improvement", "Major NC"] ∧
    (∀ k, k ∈ ["Complied", "Minor NC", "Opportunity for Improvement", "Major NC"] →
      dictGet k (verdict_counts vs) =
        some (vs.countP fun v => decide (primaryVerdict v = some k))) ∧
    verdict_counts [VerdictVal.single "Complied",
        VerdictVal.compound ["Minor NC", "OFI"], VerdictVal.single "Major NC"] =
      [("Complied", 1), ("Minor NC", 1), ("Opportunity for Improvement", 0),
       ("Major NC", 1)] := by
  refine ⟨?_, ?_, rfl⟩
  · rw [verdict_counts, foldl_countStep_keys]
    rfl
  · intro k hk
    have h0 : dictGet k initCounts = some 0 := by
      simp only [List.mem_cons, List.not_mem_nil, or_false] at hk
      rcases hk with rfl | rfl | rfl | rfl <;> rfl
    have h := dictGet_foldl_countStep vs initCounts k 0 h0
    rw [verdict_counts]
    simpa using h

/-- Witness for C5: the theorem applied to a one-element verdict list at the
key "Complied". -/
theorem verdict_counts_spec_witness :
    dictGet "Complied" (verdict_counts [VerdictVal.single "Complied"]) =
      some (([VerdictVal.single "Complied"]).countP fun v =>
        decide (primaryVerdict v = some "Complied")) :=
  (verdict_counts_spec [VerdictVal.single "Complied"]).2.1 "Complied" (by decide)

/-! ### Recommendations and checklist -/

/-- C6 counterexample: for a Complied analysis the code returns its verbatim
Indonesian recommendation line, which is not the spec's English sentence
"Maintain the practices that are already working well.". -/
theorem generate_recommendations_complied_counterexample :
    generate_recommendations ⟨"4.1", VerdictVal.single "Complied"⟩ ≠
      ["Maintain the practices that are already working well."] := by decide

/-- C6 (amended): for every analysis whose verdict is Complied,
`generate_recommendations` returns exactly the one-element list
["Pertahankan praktik yang telah berjalan dengan baik."], the source's
verbatim recommendation string (the spec's English sentence is a
translation, not the string the code returns). -/
theorem generate_recommendations_complied (clause : String) :
    generate_recommendations ⟨clause, VerdictVal.single "Complied"⟩ =
      ["Pertahankan praktik yang telah berjalan dengan baik."] := rfl

/-- C7: a compound (list) verdict is unequal to each of the three verdict
strings `generate_recommendations` compares against, so it falls into the
final else branch and receives the two Major NC recommendation lines whatever
its primary element is; the quick-recommendations aggregation of `app.py`
therefore collects the Major NC lines for a clause recorded with a compound
verdict. -/
theorem generate_recommendations_compound (clause : String) (vs : List String) :
    generate_recommendations ⟨clause, VerdictVal.compound vs⟩ =
      ["Segera implementasikan proses sesuai klausul yang belum ada.",
       "Susun dan dokumentasikan prosedur dasar untuk kepatuhan awal."] ∧
    all_recs [(clause, VerdictVal.compound vs)] =
      ["Segera implementasikan proses sesuai klausul yang belum ada.",
       "Susun dan dokumentasikan prosedur dasar untuk kepatuhan awal."] := by
  have h : generate_recommendations ⟨clause, VerdictVal.compound vs⟩ =
      ["Segera implementasikan proses sesuai klausul yang belum ada.",
       "Susun dan dokumentasikan prosedur dasar untuk kepatuhan awal."] := by
    unfold generate_recommendations
    simp
  exact ⟨h, by simpa [all_recs] using h⟩

/-- C9: `generate_checklist` returns, when at least one analysis has a
non-Complied verdict, exactly one line per such analysis (naming its clause
and verdict via `checklistLine`) in input order; when every analysis is
Complied it returns exactly the single fixed nothing-outstanding message
rather than an empty list. -/
theorem generate_checklist_spec (analysis_list : List Analysis) :
    ((∀ a ∈ analysis_list, a.verdict = VerdictVal.single "Complied") →
      generate_checklist analysis_list =
        ["Semua klausul telah terpenuhi. Tidak ada tindakan tambahan yang diperlukan."]) ∧
    ((∃ a ∈ analysis_list, a.verdict ≠ VerdictVal.single "Complied") →
      generate_checklist analysis_list =
        (analysis_list.filter fun a => a.verdict != VerdictVal.single "Complied").map
          checklistLine) := by
  constructor
  · intro hall
    have hfil : (analysis_list.filter
        fun a => a.verdict != VerdictVal.single "Complied") = [] := by
      rw [List.filter_eq_nil_iff]
      intro a ha
      simp [hall a ha]
    simp only [generate_checklist, hfil, List.map_nil, if_pos]
  · rintro ⟨a, ha, hne⟩
    have hmem : a ∈ analysis_list.filter
        fun a => a.verdict != VerdictVal.single "Complied" := by
      rw [List.mem_filter]
      exact ⟨ha, by simpa using hne⟩
    have hfil := List.ne_nil_of_mem hmem
    have hmap : ((analysis_list.filter
        fun a => a.verdict != VerdictVal.single "Complied").map checklistLine) ≠ [] := by
      simpa [List.map_eq_nil_iff] using hfil
    simp only [generate_checklist, if_neg hmap]

/-- Witness for C9: the theorem applied to an all-Complied singleton and to a
mixed two-clause list. -/
theorem generate_checklist_spec_witness :
    generate_checklist [⟨"4.1", VerdictVal.single "Complied"⟩] =
      ["Semua klausul telah terpenuhi. Tidak ada tindakan tambahan yang diperlukan."] ∧
    generate_checklist
        [⟨"4.1", VerdictVal.single "Complied"⟩, ⟨"4.2", VerdictVal.single "Major NC"⟩] =
      (([⟨"4.1", VerdictVal.single "Complied"⟩,
         ⟨"4.2", VerdictVal.single "Major NC"⟩] : List Analysis).filter
          fun a => a.verdict != VerdictVal.single "Complied").map checklistLine :=
  ⟨(generate_checklist_spec _).1 (by decide),
   (generate_checklist_spec _).2 ⟨⟨"4.2", VerdictVal.single "Major NC"⟩, by decide, by decide⟩⟩

/-! ### Open-ended evaluation guard and traversal purity -/

/-- C8: a response that is empty or whitespace-only short-circuits the
open-ended evaluation before any scoring or external call: the outcome is
immediately the verdict Major NC with zero relevance and completeness scores
and the fixed note "No response provided". -/
theorem evaluate_open_text_empty (clause_id response : String)
    (h : stripEmpty response = true) :
    evaluate_open_text_compliance clause_id response =
      OpenTextOutcome.result "Major NC" [("relevance", 0), ("completeness", 0)]
        "No response provided" := by
  unfold evaluate_open_text_compliance
  rw [if_pos (Or.inr h)]

/-- Witness for C8: the theorem applied to a whitespace-only response. -/
theorem evaluate_open_text_empty_witness :
    evaluate_open_text_compliance "4.1" "   " =
      OpenTextOutcome.result "Major NC" [("relevance", 0), ("completeness", 0)]
        "No response provided" :=
  evaluate_open_text_empty "4.1" "   " (by decide)

/-- C10: `evaluate_answer` is deterministic and side-effect free: in the
explicit state-passing embedding of the Python body (which performs only dict
reads on the module-level graph), the state coming out of a call is exactly
the static graph that went in, a second call with identical arguments on that
resulting state returns the same result as the first, and that result is the
pure function `evaluate_answer` of the three inputs. -/
theorem evaluate_answer_pure (clause_id step answer : String) :
    (evalAnswerState decision_trees clause_id step answer).2 = decision_trees ∧
    (evalAnswerState (evalAnswerState decision_trees clause_id step answer).2
        clause_id step answer).1 =
      (evalAnswerState decision_trees clause_id step answer).1 ∧
    (evalAnswerState decision_trees clause_id step answer).1 =
      evaluate_answer clause_id step answer :=
  ⟨rfl, rfl, rfl⟩

end Levnertech
